import Mathlib

/-!
# Fingerprint capture tool (`Fingerprint/Fingerprint/Fingerprint.cpp`)

A shallow embedding of the four functions of the program: `IsRunningAsAdmin`,
`SaveFingerprintToFile`, `CaptureFingerprint` and `main`.

The program is a straight line of calls into the operating system.  Every
platform call is made at most once per run, so the behaviour of the platform
is given by a record `Env` that fixes the outcome of each call.  The program
itself is modelled by explicit state passing over a `World`: the ordered trace
of every platform call and console line, and the contents of the output file.
-/

namespace Fingerprint

/-- One byte of the sample buffer. -/
abbrev Byte := Fin 256

/-- Outcomes of the platform calls, one field per out-parameter or return
value the source reads.  Pointers and handles are numbers, `0` being `NULL`. -/
structure Env where
  /-- return value of `AllocateAndInitializeSid` -/
  sidAllocated : Bool
  /-- the SID stored into `adminGroup` -/
  adminGroup : Nat
  /-- what `CheckTokenMembership` stores into `isAdmin`; `none` when the call
  leaves the flag untouched -/
  membership : Option Bool
  /-- return value of `OpenSCManager` -/
  schSCManager : Nat
  /-- value of `GetLastError()` after `OpenSCManager` -/
  scManagerError : Nat
  /-- return value of `OpenService` -/
  schService : Nat
  /-- value of `GetLastError()` after `OpenService` -/
  serviceError : Nat
  /-- return value of `QueryServiceStatusEx` -/
  queryOk : Bool
  /-- value of `GetLastError()` after `QueryServiceStatusEx` -/
  queryError : Nat
  /-- value of `ssStatus.dwCurrentState` as filled in by `QueryServiceStatusEx` -/
  dwCurrentState : Nat
  /-- the `HRESULT` of `WinBioOpenSession` -/
  openHr : Int
  /-- handle stored into `sessionHandle` -/
  sessionHandle : Nat
  /-- the `HRESULT` of `WinBioCaptureSample` -/
  captureHr : Int
  /-- buffer stored into `sample`; `none` is `NULL` -/
  sample : Option (List Byte)
  /-- value stored into `sampleSize` -/
  sampleSize : Nat
  /-- whether `std::ofstream file("fingerprint_data.bin", std::ios::binary)`
  manages to open the file -/
  fileOpens : Bool
  /-- how many of the bytes handed to `file.write` are in the file once
  `file.close()` has returned; a write that fails (disk full, quota) stores
  fewer than it was given -/
  fileStored : Nat

/-- Everything the program does that is visible from outside, in order. -/
inductive Event where
  | AllocateAndInitializeSid
  | CheckTokenMembership (sid : Nat)
  | FreeSid (sid : Nat)
  | OpenSCManager
  | OpenService (scm : Nat)
  | QueryServiceStatusEx (svc : Nat)
  | GetLastError
  | CloseServiceHandle (h : Nat)
  | WinBioOpenSession
  | WinBioCaptureSample (session : Nat)
  | WinBioFree (sample : List Byte)
  | WinBioCloseSession (session : Nat)
  /-- construction of the `std::ofstream` on `fingerprint_data.bin` -/
  | fileOpen (ok : Bool)
  | fileWrite (bytes : List Byte)
  | fileClose
  /-- one line on standard error -/
  | cerr (line : String)
  /-- one line on standard output -/
  | cout (line : String)
  deriving DecidableEq

/-- The trace so far and the contents of `fingerprint_data.bin`
(`none`: the file does not exist). -/
structure World where
  trace : List Event
  file : Option (List Byte)
  deriving DecidableEq

/-- Append one event to the trace. -/
def World.emit (w : World) (e : Event) : World :=
  { w with trace := w.trace ++ [e] }

/-- Opening `fingerprint_data.bin` for output creates it or discards what it held. -/
def World.truncate (w : World) : World :=
  { w with file := some [] }

/-- The bytes the platform stored for a write are appended to the file. -/
def World.append (w : World) (bytes : List Byte) : World :=
  { w with file := some (w.file.getD [] ++ bytes) }

/-! ## Platform constants and stream formatting (Windows SDK, C++ iostreams) -/

/-- The test `FAILED(hr)` of `winerror.h`: `((HRESULT)(hr)) < 0`. -/
def FAILED (hr : Int) : Bool := decide (hr < 0)

/-- The status `E_ACCESSDENIED` of `winerror.h`, `0x80070005` as a signed 32-bit `HRESULT`. -/
def E_ACCESSDENIED : Int := 0x80070005 - 2 ^ 32

/-- The state `SERVICE_RUNNING` of `winsvc.h`. -/
def SERVICE_RUNNING : Nat := 4

/-- The text of `std::hex << hr` for a 32-bit `long`: the bit pattern of `hr` in
lower-case hexadecimal digits, without a leading `0x`. -/
def hex (hr : Int) : String :=
  String.mk (Nat.toDigits 16 (hr % 2 ^ 32).toNat)

/-- The bytes `file.write(reinterpret_cast<const char*>(sample), sampleSize)`
reads: the first `sampleSize` bytes behind the pointer.  The model reads nothing
behind a null pointer and nothing beyond the end of the buffer. -/
def sampleBytes (sample : Option (List Byte)) (sampleSize : Nat) : List Byte :=
  (sample.getD []).take sampleSize

/-! ## The program -/

/-- Source: `bool IsRunningAsAdmin()`.  Returns the flag and the world after the call. -/
def IsRunningAsAdmin (env : Env) (w : World) : Bool × World :=
  let isAdmin := false
  let w := w.emit .AllocateAndInitializeSid
  if env.sidAllocated then
    let w := w.emit (.CheckTokenMembership env.adminGroup)
    let isAdmin := env.membership.getD isAdmin
    let w := w.emit (.FreeSid env.adminGroup)
    (isAdmin, w)
  else
    (isAdmin, w)

/-- Source: `void SaveFingerprintToFile(const WINBIO_BIR* sample, SIZE_T sampleSize)`. -/
def SaveFingerprintToFile (env : Env) (sample : Option (List Byte)) (sampleSize : Nat)
    (w : World) : World :=
  let w := w.emit (.fileOpen env.fileOpens)
  if !env.fileOpens then
    w.emit (.cerr "Failed to open file for saving fingerprint data.")
  else
    let w := w.truncate
    let bytes := sampleBytes sample sampleSize
    -- the source tests the stream neither after `write` nor after `close`
    let w := (w.emit (.fileWrite bytes)).append (bytes.take env.fileStored)
    let w := w.emit .fileClose
    w.emit (.cout "Fingerprint data saved to 'fingerprint_data.bin'.")

/-- Source: `void CaptureFingerprint()`. -/
def CaptureFingerprint (env : Env) (w : World) : World :=
  let w := w.emit .WinBioOpenSession
  let hr := env.openHr
  if FAILED hr then
    w.emit (.cerr ("Failed to open biometric session. Error: " ++ hex hr))
  else
    let sessionHandle := env.sessionHandle
    let w := w.emit (.cout "Biometric session opened successfully.")
    let w := w.emit (.WinBioCaptureSample sessionHandle)
    let hr := env.captureHr
    let sample := env.sample
    let sampleSize := env.sampleSize
    if FAILED hr then
      let w := w.emit (.cerr ("WinBioCaptureSample failed. Error: " ++ hex hr))
      let w :=
        if hr = E_ACCESSDENIED then
          w.emit (.cerr
            "Access denied. Please run the application with administrative privileges.")
        else w
      w.emit (.WinBioCloseSession sessionHandle)
    else
      let w := w.emit (.cout "Fingerprint captured successfully!")
      let w := SaveFingerprintToFile env sample sampleSize w
      let w :=
        match sample with
        | some buf => w.emit (.WinBioFree buf)
        | none => w
      w.emit (.WinBioCloseSession sessionHandle)

/-- Source: `int main()`.  Returns the exit status and the final world. -/
def main (env : Env) (w : World) : Int × World :=
  let (isAdmin, w) := IsRunningAsAdmin env w
  if !isAdmin then
    (1, w.emit (.cerr
      "This application requires administrative privileges. Please run as administrator."))
  else
    let w := w.emit .OpenSCManager
    let schSCManager := env.schSCManager
    if schSCManager = 0 then
      let w := w.emit .GetLastError
      (1, w.emit (.cerr ("OpenSCManager failed. Error: " ++ toString env.scManagerError)))
    else
      let w := w.emit (.OpenService schSCManager)
      let schService := env.schService
      if schService = 0 then
        let w := w.emit .GetLastError
        let w := w.emit (.cerr ("OpenService failed. Error: " ++ toString env.serviceError))
        (1, w.emit (.CloseServiceHandle schSCManager))
      else
        let w := w.emit (.QueryServiceStatusEx schService)
        if !env.queryOk then
          let w := w.emit .GetLastError
          let w := w.emit (.cerr
            ("QueryServiceStatusEx failed. Error: " ++ toString env.queryError))
          let w := w.emit (.CloseServiceHandle schService)
          (1, w.emit (.CloseServiceHandle schSCManager))
        else if env.dwCurrentState ≠ SERVICE_RUNNING then
          let w := w.emit (.cerr
            "Windows Biometric Service is not running. Please start the service and try again.")
          let w := w.emit (.CloseServiceHandle schService)
          (1, w.emit (.CloseServiceHandle schSCManager))
        else
          let w := w.emit (.CloseServiceHandle schService)
          let w := w.emit (.CloseServiceHandle schSCManager)
          let w := CaptureFingerprint env w
          (0, w)

/-- A whole run of the program: `main` started on an empty trace with the
output file in state `file0`. -/
def run (env : Env) (file0 : Option (List Byte)) : Int × World :=
  main env { trace := [], file := file0 }

/-! ## Observations on a trace -/

/-- The events a step added to the trace: those of `w'` beyond the ones `w` already had. -/
def emitted (w w' : World) : List Event :=
  w'.trace.drop w.trace.length

/-- Calls to the service control manager API. -/
def Event.isServiceCall : Event → Bool
  | .OpenSCManager => true
  | .OpenService _ => true
  | .QueryServiceStatusEx _ => true
  | .CloseServiceHandle _ => true
  | _ => false

/-- Calls to the biometric framework. -/
def Event.isBiometricCall : Event → Bool
  | .WinBioOpenSession => true
  | .WinBioCaptureSample _ => true
  | .WinBioFree _ => true
  | .WinBioCloseSession _ => true
  | _ => false

/-- Operations on `fingerprint_data.bin`. -/
def Event.isFileOp : Event → Bool
  | .fileOpen _ => true
  | .fileWrite _ => true
  | .fileClose => true
  | _ => false

/-- Is the event a call of `WinBioCloseSession`? -/
def Event.isCloseSession : Event → Bool
  | .WinBioCloseSession _ => true
  | _ => false

/-- Is the event a call of `FreeSid`? -/
def Event.isFreeSid : Event → Bool
  | .FreeSid _ => true
  | _ => false

/-- The lines written to standard error, in order. -/
def cerrLines (t : List Event) : List String :=
  t.filterMap fun e => match e with
    | .cerr line => some line
    | _ => none

/-- The handles passed to `CloseServiceHandle`, in order. -/
def closedServiceHandles (t : List Event) : List Nat :=
  t.filterMap fun e => match e with
    | .CloseServiceHandle h => some h
    | _ => none

/-- The four ways the service guard of `main` can stop the run. -/
inductive ServiceFailure where
  | managerConnect
  | serviceOpen
  | statusQuery
  | notRunning
  deriving DecidableEq

/-- The first check of the service guard that fails under `env`, in the order
`main` makes them; `none` when the guard passes. -/
def serviceGuard (env : Env) : Option ServiceFailure :=
  if env.schSCManager = 0 then some .managerConnect
  else if env.schService = 0 then some .serviceOpen
  else if env.queryOk = false then some .statusQuery
  else if env.dwCurrentState ≠ SERVICE_RUNNING then some .notRunning
  else none

/-- The line `main` writes to standard error for each failure of the service
guard, as the source spells it; the number is `GetLastError()` in decimal. -/
def serviceDiagnostic (c : ServiceFailure) (env : Env) : String :=
  match c with
  | .managerConnect => "OpenSCManager failed. Error: " ++ toString env.scManagerError
  | .serviceOpen => "OpenService failed. Error: " ++ toString env.serviceError
  | .statusQuery => "QueryServiceStatusEx failed. Error: " ++ toString env.queryError
  | .notRunning =>
    "Windows Biometric Service is not running. Please start the service and try again."

/-- Elevated, service running, the session opens and the capture returns the
four bytes `DE AD BE EF`; the output file can be opened and the write stores
all four. -/
def envDeadBeef : Env :=
  { sidAllocated := true, adminGroup := 7, membership := some true,
    schSCManager := 11, scManagerError := 0, schService := 12, serviceError := 0,
    queryOk := true, queryError := 0, dwCurrentState := 4,
    openHr := 0, sessionHandle := 21, captureHr := 0,
    sample := some [0xDE, 0xAD, 0xBE, 0xEF], sampleSize := 4, fileOpens := true,
    fileStored := 4 }

/-- As `envDeadBeef`, but the output file cannot be opened. -/
def envNoFile : Env := { envDeadBeef with fileOpens := false }

/-- As `envDeadBeef`, but `WinBioOpenSession` fails with `E_FAIL` (`0x80004005`). -/
def envNoSession : Env := { envDeadBeef with openHr := 0x80004005 - 2 ^ 32 }

/-- As `envDeadBeef`, but `WinBioCaptureSample` fails with `E_ACCESSDENIED` and
leaves `sample` null. -/
def envDenied : Env :=
  { envDeadBeef with captureHr := E_ACCESSDENIED, sample := none, sampleSize := 0 }

/-- The token is not a member of the administrators group. -/
def envNotAdmin : Env := { envDeadBeef with membership := some false }

/-- The SID of the administrators group cannot be allocated. -/
def envNoSid : Env := { envDeadBeef with sidAllocated := false }

/-- The service `WbioSrvc` cannot be opened (error 1060). -/
def envNoService : Env := { envDeadBeef with schService := 0, serviceError := 1060 }

/-- The service status cannot be queried (error 6). -/
def envNoQuery : Env := { envDeadBeef with queryOk := false, queryError := 6 }

/-- The service is stopped (`SERVICE_STOPPED` is 1). -/
def envStopped : Env := { envDeadBeef with dwCurrentState := 1 }

/-! ## Step lemmas -/

/-- The events `IsRunningAsAdmin` adds and the value it returns. -/
theorem IsRunningAsAdmin_spec (env : Env) (w : World) :
    IsRunningAsAdmin env w =
      if env.sidAllocated then
        (env.membership.getD false,
          { w with trace := w.trace ++ [.AllocateAndInitializeSid,
              .CheckTokenMembership env.adminGroup, .FreeSid env.adminGroup] })
      else (false, { w with trace := w.trace ++ [.AllocateAndInitializeSid] }) := by
  cases h : env.sidAllocated <;> simp [IsRunningAsAdmin, World.emit, h]

/-- What `SaveFingerprintToFile` adds to the trace and does to the file. -/
theorem SaveFingerprintToFile_spec (env : Env) (sample : Option (List Byte)) (n : Nat)
    (w : World) :
    SaveFingerprintToFile env sample n w =
      if env.fileOpens then
        { trace := w.trace ++ [.fileOpen true, .fileWrite (sampleBytes sample n), .fileClose,
            .cout "Fingerprint data saved to 'fingerprint_data.bin'."],
          file := some ((sampleBytes sample n).take env.fileStored) }
      else
        { trace := w.trace ++ [.fileOpen false,
            .cerr "Failed to open file for saving fingerprint data."],
          file := w.file } := by
  cases h : env.fileOpens <;>
    simp [SaveFingerprintToFile, World.emit, World.truncate, World.append, h]

/-- The three paths of `CaptureFingerprint`: the session does not open, the
capture fails, the capture succeeds. -/
theorem CaptureFingerprint_spec (env : Env) (w : World) :
    CaptureFingerprint env w =
      if FAILED env.openHr then
        { trace := w.trace ++ [.WinBioOpenSession,
            .cerr ("Failed to open biometric session. Error: " ++ hex env.openHr)],
          file := w.file }
      else if FAILED env.captureHr then
        { trace := w.trace ++
            ([.WinBioOpenSession, .cout "Biometric session opened successfully.",
              .WinBioCaptureSample env.sessionHandle,
              .cerr ("WinBioCaptureSample failed. Error: " ++ hex env.captureHr)] ++
             (if env.captureHr = E_ACCESSDENIED then
                [.cerr "Access denied. Please run the application with administrative privileges."]
              else []) ++
             [.WinBioCloseSession env.sessionHandle]),
          file := w.file }
      else
        { trace := w.trace ++
            ([.WinBioOpenSession, .cout "Biometric session opened successfully.",
              .WinBioCaptureSample env.sessionHandle,
              .cout "Fingerprint captured successfully!"] ++
             (if env.fileOpens then
                [.fileOpen true, .fileWrite (sampleBytes env.sample env.sampleSize), .fileClose,
                  .cout "Fingerprint data saved to 'fingerprint_data.bin'."]
              else
                [.fileOpen false, .cerr "Failed to open file for saving fingerprint data."]) ++
             (match env.sample with
              | some buf => [.WinBioFree buf]
              | none => []) ++
             [.WinBioCloseSession env.sessionHandle]),
          file := if env.fileOpens then
                    some ((sampleBytes env.sample env.sampleSize).take env.fileStored)
                  else w.file } := by
  unfold CaptureFingerprint
  cases ho : FAILED env.openHr
  · cases hc : FAILED env.captureHr
    · cases hf : env.fileOpens <;> cases hs : env.sample <;>
        simp [SaveFingerprintToFile_spec, World.emit, ho, hc, hf, hs]
    · by_cases ha : env.captureHr = E_ACCESSDENIED
      · have hd : FAILED E_ACCESSDENIED = true := by decide
        simp [World.emit, ho, ha, hd]
      · simp [World.emit, ho, hc, ha]
  · simp [World.emit, ho]

theorem serviceGuard_eq_none (env : Env) :
    serviceGuard env = none ↔
      env.schSCManager ≠ 0 ∧ env.schService ≠ 0 ∧ env.queryOk = true ∧
        env.dwCurrentState = SERVICE_RUNNING := by
  unfold serviceGuard
  by_cases h1 : env.schSCManager = 0 <;> by_cases h2 : env.schService = 0 <;>
    cases h3 : env.queryOk <;> by_cases h4 : env.dwCurrentState = SERVICE_RUNNING <;>
    simp [h1, h2, h3, h4]

/-- The world in which `main` leaves the elevation check. -/
theorem main_not_elevated (env : Env) (w : World) (h : (IsRunningAsAdmin env w).1 = false) :
    main env w = (1, (IsRunningAsAdmin env w).2.emit (.cerr
      "This application requires administrative privileges. Please run as administrator.")) := by
  simp [main, h]

theorem main_managerConnect (env : Env) (w : World) (h : (IsRunningAsAdmin env w).1 = true)
    (hg : serviceGuard env = some .managerConnect) :
    main env w = (1, { (IsRunningAsAdmin env w).2 with
      trace := (IsRunningAsAdmin env w).2.trace ++ [.OpenSCManager, .GetLastError,
        .cerr ("OpenSCManager failed. Error: " ++ toString env.scManagerError)] }) := by
  have h1 : env.schSCManager = 0 := by
    unfold serviceGuard at hg
    split_ifs at hg <;> simp_all
  simp [main, h, h1, World.emit]

theorem main_serviceOpen (env : Env) (w : World) (h : (IsRunningAsAdmin env w).1 = true)
    (hg : serviceGuard env = some .serviceOpen) :
    main env w = (1, { (IsRunningAsAdmin env w).2 with
      trace := (IsRunningAsAdmin env w).2.trace ++ [.OpenSCManager,
        .OpenService env.schSCManager, .GetLastError,
        .cerr ("OpenService failed. Error: " ++ toString env.serviceError),
        .CloseServiceHandle env.schSCManager] }) := by
  have h1 : env.schSCManager ≠ 0 ∧ env.schService = 0 := by
    unfold serviceGuard at hg
    split_ifs at hg <;> simp_all
  simp [main, h, h1.1, h1.2, World.emit]

theorem main_statusQuery (env : Env) (w : World) (h : (IsRunningAsAdmin env w).1 = true)
    (hg : serviceGuard env = some .statusQuery) :
    main env w = (1, { (IsRunningAsAdmin env w).2 with
      trace := (IsRunningAsAdmin env w).2.trace ++ [.OpenSCManager,
        .OpenService env.schSCManager, .QueryServiceStatusEx env.schService, .GetLastError,
        .cerr ("QueryServiceStatusEx failed. Error: " ++ toString env.queryError),
        .CloseServiceHandle env.schService, .CloseServiceHandle env.schSCManager] }) := by
  have h1 : env.schSCManager ≠ 0 ∧ env.schService ≠ 0 ∧ env.queryOk = false := by
    unfold serviceGuard at hg
    split_ifs at hg <;> simp_all
  simp [main, h, h1.1, h1.2.1, h1.2.2, World.emit]

theorem main_notRunning (env : Env) (w : World) (h : (IsRunningAsAdmin env w).1 = true)
    (hg : serviceGuard env = some .notRunning) :
    main env w = (1, { (IsRunningAsAdmin env w).2 with
      trace := (IsRunningAsAdmin env w).2.trace ++ [.OpenSCManager,
        .OpenService env.schSCManager, .QueryServiceStatusEx env.schService,
        .cerr "Windows Biometric Service is not running. Please start the service and try again.",
        .CloseServiceHandle env.schService, .CloseServiceHandle env.schSCManager] }) := by
  have h1 : env.schSCManager ≠ 0 ∧ env.schService ≠ 0 ∧ env.queryOk = true ∧
      env.dwCurrentState ≠ SERVICE_RUNNING := by
    unfold serviceGuard at hg
    split_ifs at hg <;> simp_all
  simp [main, h, h1.1, h1.2.1, h1.2.2.1, h1.2.2.2, World.emit]

theorem main_guards_pass (env : Env) (w : World) (h : (IsRunningAsAdmin env w).1 = true)
    (hg : serviceGuard env = none) :
    main env w = (0, CaptureFingerprint env { (IsRunningAsAdmin env w).2 with
      trace := (IsRunningAsAdmin env w).2.trace ++ [.OpenSCManager,
        .OpenService env.schSCManager, .QueryServiceStatusEx env.schService,
        .CloseServiceHandle env.schService, .CloseServiceHandle env.schSCManager] }) := by
  have h1 := (serviceGuard_eq_none env).1 hg
  simp [main, h, h1.1, h1.2.1, h1.2.2.1, h1.2.2.2, World.emit]

theorem serviceDiagnostic_ne (c c' : ServiceFailure) (env env' : Env) (h : c ≠ c') :
    serviceDiagnostic c env ≠ serviceDiagnostic c' env' := by
  intro heq
  have hd := congrArg String.data heq
  cases c <;> cases c' <;>
    first
    | exact h rfl
    | simp [serviceDiagnostic, String.data_append] at hd

/-- The standard-error lines of a run stopped by the service guard. -/
theorem run_guard_failure (env : Env) (file0 : Option (List Byte)) (c : ServiceFailure)
    (hadmin : (IsRunningAsAdmin env ⟨[], file0⟩).1 = true)
    (hguard : serviceGuard env = some c) :
    (run env file0).1 = 1 ∧
    (∀ e ∈ (run env file0).2.trace, e.isBiometricCall = false ∧ e.isFileOp = false) ∧
    (run env file0).2.file = file0 ∧
    cerrLines (run env file0).2.trace = [serviceDiagnostic c env] := by
  unfold run
  cases c
  · rw [main_managerConnect env _ hadmin hguard]
    cases hs : env.sidAllocated <;>
      simp [IsRunningAsAdmin_spec, hs, cerrLines, serviceDiagnostic, Event.isBiometricCall,
        Event.isFileOp]
  · rw [main_serviceOpen env _ hadmin hguard]
    cases hs : env.sidAllocated <;>
      simp [IsRunningAsAdmin_spec, hs, cerrLines, serviceDiagnostic, Event.isBiometricCall,
        Event.isFileOp]
  · rw [main_statusQuery env _ hadmin hguard]
    cases hs : env.sidAllocated <;>
      simp [IsRunningAsAdmin_spec, hs, cerrLines, serviceDiagnostic, Event.isBiometricCall,
        Event.isFileOp]
  · rw [main_notRunning env _ hadmin hguard]
    cases hs : env.sidAllocated <;>
      simp [IsRunningAsAdmin_spec, hs, cerrLines, serviceDiagnostic, Event.isBiometricCall,
        Event.isFileOp]

/-- A run stopped by the elevation check. -/
theorem not_elevated_run (env : Env) (file0 : Option (List Byte))
    (hadmin : (IsRunningAsAdmin env ⟨[], file0⟩).1 = false) :
    (run env file0).1 = 1 ∧
    (∀ e ∈ (run env file0).2.trace,
      e.isServiceCall = false ∧ e.isBiometricCall = false ∧ e.isFileOp = false) ∧
    (run env file0).2.file = file0 := by
  unfold run
  rw [main_not_elevated env _ hadmin]
  cases hs : env.sidAllocated <;>
    simp [IsRunningAsAdmin_spec, hs, World.emit, Event.isServiceCall, Event.isBiometricCall,
      Event.isFileOp]

/-! ## The claims -/

/-- C1, as stated, fails: with every guard passed, the session opened and the
capture returning `DE AD BE EF`, a run in which `fingerprint_data.bin` cannot be
opened leaves no file behind (and still exits with status 0). -/
theorem roundtrip_fails_when_file_cannot_be_opened :
    (IsRunningAsAdmin envNoFile ⟨[], none⟩).1 = true ∧
    serviceGuard envNoFile = none ∧
    FAILED envNoFile.openHr = false ∧
    FAILED envNoFile.captureHr = false ∧
    envNoFile.sample = some [0xDE, 0xAD, 0xBE, 0xEF] ∧
    envNoFile.sampleSize = 4 ∧
    (run envNoFile none).2.file = none ∧
    (run envNoFile none).2.file ≠ some [0xDE, 0xAD, 0xBE, 0xEF] := by
  decide

/-- C1, amended: when the elevation check and the service guard pass, the
session opens, the capture succeeds with a buffer `b` of `sampleSize = b.length`
bytes, the output file can be opened and the write stores all the bytes it is
given, the run ends with `fingerprint_data.bin` holding exactly `b`, whatever
it held before, and the exit status is 0. -/
theorem capture_roundtrip (env : Env) (file0 : Option (List Byte)) (b : List Byte)
    (hadmin : (IsRunningAsAdmin env ⟨[], file0⟩).1 = true)
    (hguard : serviceGuard env = none)
    (hopen : FAILED env.openHr = false)
    (hcapture : FAILED env.captureHr = false)
    (hsample : env.sample = some b)
    (hsize : env.sampleSize = b.length)
    (hfile : env.fileOpens = true)
    (hwrite : b.length ≤ env.fileStored) :
    (run env file0).2.file = some b ∧ (run env file0).1 = 0 := by
  unfold run
  rw [main_guards_pass env _ hadmin hguard, CaptureFingerprint_spec]
  simp [hopen, hcapture, hsample, hsize, hfile, sampleBytes, List.take_of_length_le hwrite]

/-- C1 witness: the scenario of the specification, over an older file. -/
theorem capture_roundtrip_witness :
    (run envDeadBeef (some [1, 2, 3])).2.file = some [0xDE, 0xAD, 0xBE, 0xEF] ∧
    (run envDeadBeef (some [1, 2, 3])).1 = 0 :=
  capture_roundtrip envDeadBeef (some [1, 2, 3]) [0xDE, 0xAD, 0xBE, 0xEF]
    (by decide) (by decide) (by decide) (by decide) rfl rfl rfl (by decide)

/-- C2, as stated, fails: a run whose biometric session cannot be opened, a run
whose capture fails and a run whose output file cannot be opened all exit with
status 0, none of them having written a byte. -/
theorem exit_status_zero_without_sample :
    (FAILED envNoSession.openHr = true ∧ (run envNoSession none).1 = 0 ∧
      (run envNoSession none).2.file = none) ∧
    (FAILED envDenied.captureHr = true ∧ (run envDenied none).1 = 0 ∧
      (run envDenied none).2.file = none) ∧
    (envNoFile.fileOpens = false ∧ (run envNoFile none).1 = 0 ∧
      (run envNoFile none).2.file = none) := by
  decide

/-- C2, amended: the exit status of `main` is 0 exactly when the elevation
check and the service guard both pass, and 1 otherwise, whatever the outcome of
the session open, the capture and the file open; a run that wrote the sample
therefore exits with status 0. -/
theorem exit_status (env : Env) (file0 : Option (List Byte)) :
    ((run env file0).1 = 0 ↔
      ((IsRunningAsAdmin env ⟨[], file0⟩).1 = true ∧ serviceGuard env = none)) ∧
    ((run env file0).1 = 1 ↔
      ¬((IsRunningAsAdmin env ⟨[], file0⟩).1 = true ∧ serviceGuard env = none)) ∧
    ((∃ bytes, Event.fileWrite bytes ∈ (run env file0).2.trace) → (run env file0).1 = 0) := by
  cases hadmin : (IsRunningAsAdmin env ⟨[], file0⟩).1
  · have hm := main_not_elevated env ⟨[], file0⟩ hadmin
    refine ⟨?_, ?_, ?_⟩
    · simp [run, hm]
    · simp [run, hm]
    · rintro ⟨bytes, hb⟩
      exfalso
      revert hb
      unfold run
      rw [hm]
      cases hs : env.sidAllocated <;> simp [IsRunningAsAdmin_spec, hs, World.emit]
  · cases hg : serviceGuard env with
    | none =>
      have hm := main_guards_pass env ⟨[], file0⟩ hadmin hg
      simp [run, hm]
    | some c =>
      have hr := run_guard_failure env file0 c hadmin hg
      refine ⟨?_, ?_, ?_⟩
      · simp [hr.1]
      · simp [hr.1]
      · rintro ⟨bytes, hb⟩
        have := (hr.2.1 _ hb).2
        simp [Event.isFileOp] at this

/-- C2 witness: the run of the specification's scenario writes the sample and
exits with status 0. -/
theorem exit_status_witness : (run envDeadBeef none).1 = 0 :=
  (exit_status envDeadBeef none).2.2 ⟨[0xDE, 0xAD, 0xBE, 0xEF], by decide⟩

/-- C3: when `IsRunningAsAdmin` reports false, `main` makes no call to the
service control manager, no biometric call and no file operation, leaves
`fingerprint_data.bin` as it was, and exits with status 1. -/
theorem not_elevated_stops (env : Env) (file0 : Option (List Byte))
    (hadmin : (IsRunningAsAdmin env ⟨[], file0⟩).1 = false) :
    (run env file0).1 = 1 ∧
    (∀ e ∈ (run env file0).2.trace,
      e.isServiceCall = false ∧ e.isBiometricCall = false ∧ e.isFileOp = false) ∧
    (run env file0).2.file = file0 := by
  exact not_elevated_run env file0 hadmin

/-- C3 witness: a token outside the administrators group. -/
theorem not_elevated_stops_witness :
    (IsRunningAsAdmin envNotAdmin ⟨[], some [9]⟩).1 = false ∧
    (run envNotAdmin (some [9])).1 = 1 ∧
    (run envNotAdmin (some [9])).2.file = some [9] :=
  have h := not_elevated_stops envNotAdmin (some [9]) (by decide)
  ⟨by decide, h.1, h.2.2⟩

/-- C4: when the elevation check passes and the service guard fails for cause
`c`, `main` exits with status 1 without any biometric call or file operation
(so `CaptureFingerprint` is not entered), the output file is untouched, the one
line on standard error is the diagnostic of `c`, and a run stopped by a
different cause prints a different line. -/
theorem service_guard_stops (env : Env) (file0 : Option (List Byte)) (c : ServiceFailure)
    (hadmin : (IsRunningAsAdmin env ⟨[], file0⟩).1 = true)
    (hguard : serviceGuard env = some c) :
    (run env file0).1 = 1 ∧
    (∀ e ∈ (run env file0).2.trace, e.isBiometricCall = false ∧ e.isFileOp = false) ∧
    (run env file0).2.file = file0 ∧
    cerrLines (run env file0).2.trace = [serviceDiagnostic c env] ∧
    (∀ (env' : Env) (file0' : Option (List Byte)) (c' : ServiceFailure),
      (IsRunningAsAdmin env' ⟨[], file0'⟩).1 = true → serviceGuard env' = some c' → c' ≠ c →
      cerrLines (run env' file0').2.trace ≠ cerrLines (run env file0).2.trace) := by
  have hr := run_guard_failure env file0 c hadmin hguard
  refine ⟨hr.1, hr.2.1, hr.2.2.1, hr.2.2.2, ?_⟩
  intro env' file0' c' hadmin' hguard' hne
  rw [hr.2.2.2, (run_guard_failure env' file0' c' hadmin' hguard').2.2.2]
  intro heq
  exact serviceDiagnostic_ne c' c env' env hne (List.head_eq_of_cons_eq heq)

/-- C4 witness: the service `WbioSrvc` cannot be opened; the run that finds the
service stopped prints another line. -/
theorem service_guard_stops_witness :
    (run envNoService none).1 = 1 ∧
    cerrLines (run envNoService none).2.trace = ["OpenService failed. Error: 1060"] ∧
    cerrLines (run envStopped none).2.trace ≠ cerrLines (run envNoService none).2.trace :=
  have h := service_guard_stops envNoService none .serviceOpen (by decide) (by decide)
  ⟨h.1, h.2.2.2.1.trans (by decide),
    h.2.2.2.2 envStopped none .notRunning (by decide) (by decide) (by decide)⟩

/-- C6: when the session opens and the capture succeeds but
`fingerprint_data.bin` cannot be opened, `CaptureFingerprint` reports the
failure on standard error, writes nothing (the file is as before), and ends
with the release of the sample buffer, when it is non-null, followed by the
close of the session. -/
theorem cleanup_after_file_open_failure (env : Env) (w : World)
    (hopen : FAILED env.openHr = false)
    (hcapture : FAILED env.captureHr = false)
    (hfile : env.fileOpens = false) :
    emitted w (CaptureFingerprint env w) =
      [.WinBioOpenSession, .cout "Biometric session opened successfully.",
        .WinBioCaptureSample env.sessionHandle, .cout "Fingerprint captured successfully!",
        .fileOpen false, .cerr "Failed to open file for saving fingerprint data."] ++
      (match env.sample with
        | some buf => [.WinBioFree buf]
        | none => []) ++
      [.WinBioCloseSession env.sessionHandle] ∧
    (∀ bytes, Event.fileWrite bytes ∉ emitted w (CaptureFingerprint env w)) ∧
    (CaptureFingerprint env w).file = w.file := by
  rw [CaptureFingerprint_spec]
  cases hs : env.sample <;>
    simp [emitted, hopen, hcapture, hfile]

/-- C6 witness: the capture returned `DE AD BE EF`, the file cannot be opened
and an older file is left as it was. -/
theorem cleanup_after_file_open_failure_witness :
    emitted ⟨[], some [5]⟩ (CaptureFingerprint envNoFile ⟨[], some [5]⟩) =
      [.WinBioOpenSession, .cout "Biometric session opened successfully.",
        .WinBioCaptureSample 21, .cout "Fingerprint captured successfully!",
        .fileOpen false, .cerr "Failed to open file for saving fingerprint data.",
        .WinBioFree [0xDE, 0xAD, 0xBE, 0xEF], .WinBioCloseSession 21] ∧
    (CaptureFingerprint envNoFile ⟨[], some [5]⟩).file = some [5] :=
  have h := cleanup_after_file_open_failure envNoFile ⟨[], some [5]⟩
    (by decide) (by decide) (by decide)
  ⟨h.1, h.2.2⟩

/-- C7: when the session is open and the capture call returns a failing status
`hr`, `CaptureFingerprint` writes the line carrying `hr` in hexadecimal to
standard error, writes the remediation line after it exactly when `hr` is
`E_ACCESSDENIED`, closes the session once, performs no file operation and
leaves the file as it was. -/
theorem capture_failure_reported (env : Env) (w : World)
    (hopen : FAILED env.openHr = false)
    (hcapture : FAILED env.captureHr = true) :
    cerrLines (emitted w (CaptureFingerprint env w)) =
      ("WinBioCaptureSample failed. Error: " ++ hex env.captureHr) ::
        (if env.captureHr = E_ACCESSDENIED then
          ["Access denied. Please run the application with administrative privileges."]
        else []) ∧
    (Event.cerr "Access denied. Please run the application with administrative privileges."
        ∈ emitted w (CaptureFingerprint env w) ↔ env.captureHr = E_ACCESSDENIED) ∧
    (emitted w (CaptureFingerprint env w)).countP Event.isCloseSession = 1 ∧
    (emitted w (CaptureFingerprint env w)).getLast? =
      some (.WinBioCloseSession env.sessionHandle) ∧
    (∀ e ∈ emitted w (CaptureFingerprint env w), e.isFileOp = false) ∧
    (CaptureFingerprint env w).file = w.file := by
  have hne : "WinBioCaptureSample failed. Error: " ++ hex env.captureHr ≠
      "Access denied. Please run the application with administrative privileges." := by
    intro h
    have hd := congrArg String.data h
    simp [String.data_append] at hd
  rw [CaptureFingerprint_spec]
  by_cases ha : env.captureHr = E_ACCESSDENIED
  · have hd : FAILED E_ACCESSDENIED = true := by decide
    rw [ha] at hne
    simp [emitted, hopen, ha, hd, cerrLines, Event.isCloseSession, Event.isFileOp,
      List.countP_cons]
  · simp [emitted, hopen, hcapture, ha, cerrLines, Event.isCloseSession, Event.isFileOp,
      List.countP_cons, hne.symm]

/-- C7 witness: the capture is refused with `E_ACCESSDENIED`. -/
theorem capture_failure_reported_witness :
    cerrLines (emitted ⟨[], none⟩ (CaptureFingerprint envDenied ⟨[], none⟩)) =
      ["WinBioCaptureSample failed. Error: 80070005",
        "Access denied. Please run the application with administrative privileges."] :=
  (capture_failure_reported envDenied ⟨[], none⟩ (by decide) (by decide)).1.trans (by decide)

/-- C8: in every run of `main` that gets past the elevation check, the handles
passed to `CloseServiceHandle` are, in order, the service handle if `OpenService`
returned one and the manager handle if `OpenSCManager` returned one: each
acquired handle is closed once, and nothing is closed that was not acquired. -/
theorem service_handles_closed (env : Env) (file0 : Option (List Byte))
    (hadmin : (IsRunningAsAdmin env ⟨[], file0⟩).1 = true) :
    closedServiceHandles (run env file0).2.trace =
      (if env.schSCManager ≠ 0 ∧ env.schService ≠ 0 then [env.schService] else []) ++
      (if env.schSCManager ≠ 0 then [env.schSCManager] else []) := by
  cases hg : serviceGuard env with
  | none =>
    have h1 := (serviceGuard_eq_none env).1 hg
    unfold run
    rw [main_guards_pass env _ hadmin hg, CaptureFingerprint_spec]
    cases hs : env.sidAllocated <;> cases ho : FAILED env.openHr <;>
      cases hc : FAILED env.captureHr <;> cases hf : env.fileOpens <;>
      cases hb : env.sample <;> by_cases ha : env.captureHr = E_ACCESSDENIED <;>
      simp [IsRunningAsAdmin_spec, hs, ha, h1.1, h1.2.1, closedServiceHandles]
  | some c =>
    unfold run
    cases c
    · rw [main_managerConnect env _ hadmin hg]
      have h1 : env.schSCManager = 0 := by
        unfold serviceGuard at hg
        split_ifs at hg <;> simp_all
      cases hs : env.sidAllocated <;>
        simp [IsRunningAsAdmin_spec, hs, h1, closedServiceHandles]
    · rw [main_serviceOpen env _ hadmin hg]
      have h1 : env.schSCManager ≠ 0 ∧ env.schService = 0 := by
        unfold serviceGuard at hg
        split_ifs at hg <;> simp_all
      cases hs : env.sidAllocated <;>
        simp [IsRunningAsAdmin_spec, hs, h1.1, h1.2, closedServiceHandles]
    · rw [main_statusQuery env _ hadmin hg]
      have h1 : env.schSCManager ≠ 0 ∧ env.schService ≠ 0 := by
        unfold serviceGuard at hg
        split_ifs at hg <;> simp_all
      cases hs : env.sidAllocated <;>
        simp [IsRunningAsAdmin_spec, hs, h1.1, h1.2, closedServiceHandles]
    · rw [main_notRunning env _ hadmin hg]
      have h1 : env.schSCManager ≠ 0 ∧ env.schService ≠ 0 := by
        unfold serviceGuard at hg
        split_ifs at hg <;> simp_all
      cases hs : env.sidAllocated <;>
        simp [IsRunningAsAdmin_spec, hs, h1.1, h1.2, closedServiceHandles]

/-- C8 witness: the status query fails after both handles were acquired. -/
theorem service_handles_closed_witness :
    closedServiceHandles (run envNoQuery none).2.trace = [12, 11] :=
  (service_handles_closed envNoQuery none (by decide)).trans (by decide)

/-- C9: `IsRunningAsAdmin` returns false when the SID cannot be allocated, and
then calls neither `CheckTokenMembership` nor `FreeSid`; when the SID is
allocated it returns the flag `CheckTokenMembership` stored (false when the
call stored none) and calls `FreeSid` exactly once, on that SID. -/
theorem IsRunningAsAdmin_result (env : Env) (w : World) :
    (env.sidAllocated = false →
      (IsRunningAsAdmin env w).1 = false ∧
      emitted w (IsRunningAsAdmin env w).2 = [.AllocateAndInitializeSid]) ∧
    (env.sidAllocated = true →
      (∀ b, env.membership = some b → (IsRunningAsAdmin env w).1 = b) ∧
      (env.membership = none → (IsRunningAsAdmin env w).1 = false) ∧
      emitted w (IsRunningAsAdmin env w).2 =
        [.AllocateAndInitializeSid, .CheckTokenMembership env.adminGroup,
          .FreeSid env.adminGroup] ∧
      (emitted w (IsRunningAsAdmin env w).2).countP Event.isFreeSid = 1) := by
  constructor
  · intro h
    simp [IsRunningAsAdmin_spec, h, emitted]
  · intro h
    refine ⟨?_, ?_, ?_, ?_⟩
    · intro b hb
      simp [IsRunningAsAdmin_spec, h, hb]
    · intro hb
      simp [IsRunningAsAdmin_spec, h, hb]
    · simp [IsRunningAsAdmin_spec, h, emitted]
    · simp [IsRunningAsAdmin_spec, h, emitted, Event.isFreeSid]

/-- C9 witness: without a SID the answer is false and only the allocation was
attempted; with one, a token outside the group gives false. -/
theorem IsRunningAsAdmin_result_witness :
    ((IsRunningAsAdmin envNoSid ⟨[], none⟩).1 = false ∧
      emitted ⟨[], none⟩ (IsRunningAsAdmin envNoSid ⟨[], none⟩).2 =
        [.AllocateAndInitializeSid]) ∧
    (IsRunningAsAdmin envNotAdmin ⟨[], none⟩).1 = false :=
  ⟨(IsRunningAsAdmin_result envNoSid ⟨[], none⟩).1 rfl,
    ((IsRunningAsAdmin_result envNotAdmin ⟨[], none⟩).2 rfl).1 false rfl⟩

/-- C10: a run of `main` in which the elevation check, the service guard, the
session open or the capture call fails performs no operation on
`fingerprint_data.bin`, which is left as it was. -/
theorem no_file_operation_unless_captured (env : Env) (file0 : Option (List Byte))
    (h : ¬((IsRunningAsAdmin env ⟨[], file0⟩).1 = true ∧ serviceGuard env = none ∧
      FAILED env.openHr = false ∧ FAILED env.captureHr = false)) :
    (∀ e ∈ (run env file0).2.trace, e.isFileOp = false) ∧
    (run env file0).2.file = file0 := by
  cases hadmin : (IsRunningAsAdmin env ⟨[], file0⟩).1
  · have hr := not_elevated_run env file0 hadmin
    exact ⟨fun e he => (hr.2.1 e he).2.2, hr.2.2⟩
  · cases hg : serviceGuard env with
    | some c =>
      have hr := run_guard_failure env file0 c hadmin hg
      exact ⟨fun e he => (hr.2.1 e he).2, hr.2.2.1⟩
    | none =>
      unfold run
      rw [main_guards_pass env _ hadmin hg, CaptureFingerprint_spec]
      cases ho : FAILED env.openHr
      · cases hc : FAILED env.captureHr
        · exact absurd ⟨hadmin, hg, ho, hc⟩ h
        · cases hs : env.sidAllocated <;> by_cases ha : env.captureHr = E_ACCESSDENIED <;>
            simp [IsRunningAsAdmin_spec, hs, ha, Event.isFileOp]
      · cases hs : env.sidAllocated <;>
          simp [IsRunningAsAdmin_spec, hs, Event.isFileOp]

/-- C10 witness: the capture is refused and the older file is still there. -/
theorem no_file_operation_unless_captured_witness :
    FAILED envDenied.captureHr = true ∧
    (run envDenied (some [1, 2])).2.file = some [1, 2] :=
  ⟨by decide, (no_file_operation_unless_captured envDenied (some [1, 2]) (by decide)).2⟩

end Fingerprint
